import Mathlib

/-!
Verification of the routing and termination logic of the data-enrichment
repository: the enrichment agent graph (`src/enrichment_agent/graph.py`,
`state.py`, `configuration.py`) and the ReAct agent graph
(`react_agent/graph.py`, `utils/state.py`).

The LLM invocations are external effects: each node function is embedded as
the pure computation the Python code performs after the model response is
available, with the response passed in as an argument.
-/

namespace DataEnrichment

/-- Tool call attached to an AIMessage: the langchain ToolCall dict with
keys name, args and id. The args value is a JSON object, modelled as an
association list from keys to opaque string values. -/
structure ToolCall where
  name : String
  args : List (String × String)
  id : String
deriving DecidableEq

/-- Chat messages as manipulated by both graphs. `human` is HumanMessage,
`ai` is AIMessage (id, content, tool_calls), `tool` is ToolMessage
(tool_call_id, content, name, status). -/
inductive Msg where
  | human (content : String)
  | ai (id : String) (content : String) (tool_calls : List ToolCall)
  | tool (tool_call_id : String) (content : String) (name : String) (status : String)
deriving DecidableEq

/-- Python `isinstance(m, AIMessage)`. -/
def Msg.isAI : Msg → Bool
  | .ai _ _ _ => true
  | _ => false

/-- Python attribute access `m.tool_calls`: only AIMessage has the
attribute; on the other message classes it raises AttributeError,
modelled as `none`. -/
def Msg.toolCallsAttr : Msg → Option (List ToolCall)
  | .ai _ _ tcs => some tcs
  | _ => none

/-- The tool_calls of a message already known to be an AIMessage
(accesses guarded by an isinstance check in the source). -/
def Msg.toolCalls (m : Msg) : List ToolCall :=
  m.toolCallsAttr.getD []

/-- Runtime state object of the enrichment graph (state.py). The declared
channels are topic and info (InputState, lines 8-11) and messages
(State, line 58); graph.py additionally reads extraction_schema and
loop_step from the state object, so they are carried as fields here.
extraction_schema is the JSON schema text, info the extracted JSON object. -/
structure State where
  topic : String
  extraction_schema : String
  info : Option (List (String × String))
  messages : List Msg
  loop_step : Nat
deriving DecidableEq

/-- State channels declared in enrichment_agent/state.py together with
whether the channel is annotated with a reducer: InputState (lines 8-11)
declares topic and info with no reducer; State (line 58) adds messages
with the add_messages reducer. No other channel is declared. -/
def stateChannels : List (String × Bool) :=
  [("topic", false), ("info", false), ("messages", true)]

/-- Python truthiness of `state.info` (an Optional dict): None and the
empty dict are falsy. -/
def infoTruthy : Option (List (String × String)) → Bool
  | none => false
  | some d => !d.isEmpty

/-- Modelled from the spec: prompts.MAIN_PROMPT, the main prompt template
(the prompts module is imported by graph.py and configuration.py but its
file is not among the sources; the spec describes it only as a prompt
string template, and no verified property depends on its text). -/
def MAIN_PROMPT : String := "MAIN PROMPT TEMPLATE"

/-- Configuration dataclass of the enrichment agent
(configuration.py lines 13-52). -/
structure Configuration where
  model : String
  prompt : String
  max_search_results : Nat
  max_info_tool_calls : Nat
  max_loops : Nat
deriving DecidableEq

/-- Field defaults of the Configuration dataclass
(configuration.py lines 17-52). -/
def Configuration.defaults : Configuration :=
  { model := "anthropic/claude-3-5-sonnet-20240620"
  , prompt := MAIN_PROMPT
  , max_search_results := 10
  , max_info_tool_calls := 3
  , max_loops := 6 }

/-- The configurable dict of a RunnableConfig, restricted to the keys that
match Configuration fields (from_runnable_config drops every other key,
configuration.py lines 61-62). A `none` field is an absent key. -/
structure Configurable where
  model : Option String := none
  prompt : Option String := none
  max_search_results : Option Nat := none
  max_info_tool_calls : Option Nat := none
  max_loops : Option Nat := none
deriving DecidableEq

/-- RunnableConfig as consumed by from_runnable_config: only its
configurable entry matters, which may be absent or None. -/
structure RunnableConfig where
  configurable : Option Configurable := none
deriving DecidableEq

/-- Configuration.from_runnable_config (configuration.py lines 54-62):
ensure_config turns an absent config into an empty one, the configurable
dict (or empty, line 60) overrides the dataclass defaults field by field. -/
def Configuration.from_runnable_config (config : Option RunnableConfig) : Configuration :=
  let c := (config.getD {}).configurable.getD {}
  { model := c.model.getD Configuration.defaults.model
  , prompt := c.prompt.getD Configuration.defaults.prompt
  , max_search_results := c.max_search_results.getD Configuration.defaults.max_search_results
  , max_info_tool_calls := c.max_info_tool_calls.getD Configuration.defaults.max_info_tool_calls
  , max_loops := c.max_loops.getD Configuration.defaults.max_loops }

/-- Python `isinstance(x, ToolMessage)` applied to the value bound at
graph.py line 272, which is the whole message *list*
(`last_message = state.messages`, with no `[-1]` index): a Python list is
never an instance of ToolMessage, so the test is constantly false, and
the short-circuited `last_message.status == "error"` conjunct at line 277
is never evaluated. -/
def isinstanceToolMessageOfList (_msgs : List Msg) : Bool := false

/-- route_after_checker (graph.py lines 239-283). Note that line 272 binds
`last_message = state.messages` (the list itself, not its last element),
so the error-status branch at lines 277-279 is dead code. -/
def route_after_checker (state : State) (config : RunnableConfig) : String :=
  let configurable := Configuration.from_runnable_config (some config)
  let last_message : List Msg := state.messages
  if state.loop_step < configurable.max_loops then
    if !(infoTruthy state.info) then "call_agent_model"
    else if isinstanceToolMessageOfList last_message then "call_agent_model"
    else "__end__"
  else "__end__"

/-- route_after_agent (graph.py lines 195-237). `state.messages[-1]` raises
IndexError on an empty list, modelled as `none`. -/
def route_after_agent (state : State) : Option String :=
  match state.messages.getLast? with
  | none => none
  | some last_message =>
    if !last_message.isAI then some "call_agent_model"
    else
      match last_message.toolCalls with
      | tc :: _ => if tc.name == "Info" then some "reflect" else some "tools"
      | [] => some "tools"

/-- Update dict returned by call_agent_model: messages, info, loop_step
(graph.py lines 94-99). -/
structure AgentUpdate where
  messages : List Msg
  info : Option (List (String × String))
  loop_step : Nat
deriving DecidableEq

/-- call_agent_model after the model responds (graph.py lines 74-99; lines
22-72 build the prompt and invoke the LLM, whose AIMessage response is
passed in here as its id, content and tool_calls). Lines 78-82 scan the
tool calls for the first one named "Info" and take its args as info;
lines 83-88 then replace the tool calls by that single Info call; lines
89-93 append a corrective HumanMessage when no tool was called. -/
def call_agent_model (rid content : String) (tool_calls : List ToolCall) : AgentUpdate :=
  let info : Option (List (String × String)) :=
    (tool_calls.find? (fun tc => tc.name == "Info")).map ToolCall.args
  let tool_calls2 : List ToolCall :=
    match tool_calls.find? (fun tc => tc.name == "Info") with
    | some tc => [tc]
    | none => tool_calls
  let response : Msg := .ai rid content tool_calls2
  let response_messages : List Msg :=
    if tool_calls2.isEmpty then
      [response, .human "Please respond by calling one of the provided tools."]
    else [response]
  { messages := response_messages, info := info, loop_step := 1 }

/-- Structured output schema of the critique model
(graph.py lines 101-109). -/
structure InfoIsSatisfactory where
  reason : List String
  is_satisfactory : Bool
deriving DecidableEq

/-- Python `str(response)` on the pydantic critique object; the exact
rendering is irrelevant to every verified property. -/
def InfoIsSatisfactory.toStr (r : InfoIsSatisfactory) : String :=
  "reason=" ++ String.intercalate ", " r.reason
    ++ " is_satisfactory=" ++ toString r.is_satisfactory

/-- Python exceptions that the embedded fragments can raise. -/
inductive PyError where
  | indexError
  | valueError
deriving DecidableEq

/-- Rendering of an exception object inside an f-string. -/
def PyError.descr : PyError → String
  | .indexError => "IndexError"
  | .valueError => "ValueError"

/-- Update dict returned by reflect: either sets the info channel or
appends messages (graph.py lines 169 and 171-192). -/
inductive ReflectUpdate where
  | setInfo (info : Option (List (String × String)))
  | addMessages (msgs : List Msg)
deriving DecidableEq

/-- reflect after the critique model responds (graph.py lines 112-192).
Lines 144-159 build the checker prompt and invoke the model; since that
call is external, `reflect` receives the structured response as an
argument, so by the time any of the code modelled below runs the critique
model has already been invoked. Line 160 `state.messages[-1]` raises
IndexError on an empty list; lines 161-165 raise ValueError when the last
message is not an AIMessage; lines 167-180 are a try/except around
`return {"info": presumed_info}` whose tried expression (a dict display
of a local variable) cannot raise; lines 181-192 build the error
ToolMessage from `last_message.tool_calls[0]`, which raises IndexError
when the tool_calls list is empty. -/
def reflect (state : State) (response : InfoIsSatisfactory) : Except PyError ReflectUpdate :=
  match state.messages.getLast? with
  | none => .error .indexError
  | some last_message =>
    if !last_message.isAI then .error .valueError
    else if response.is_satisfactory then
      let tried : Except PyError ReflectUpdate := .ok (.setInfo state.info)
      match tried with
      | .ok r => .ok r
      | .error e =>
        match last_message.toolCalls with
        | [] => .error .indexError
        | tc :: _ =>
          .ok (.addMessages
            [.tool tc.id ("Invalid response: " ++ e.descr) "Info" "error"])
    else
      match last_message.toolCalls with
      | [] => .error .indexError
      | tc :: _ =>
        .ok (.addMessages [.tool tc.id response.toStr "Info" "error"])

/-- StateGraph construction state: node names, unconditional edges, and
the (source, router) pairs of conditional edges. -/
structure GraphModel where
  nodes : List String
  edges : List (String × String)
  conditional_edges : List (String × String)
deriving DecidableEq

/-- StateGraph(State, ...) before any node is added. -/
def GraphModel.empty : GraphModel := ⟨[], [], []⟩

/-- workflow.add_node: registers a node under the given name (add_node on a
bare function registers it under the function name). -/
def GraphModel.add_node (g : GraphModel) (n : String) : GraphModel :=
  { g with nodes := g.nodes ++ [n] }

/-- workflow.add_edge. -/
def GraphModel.add_edge (g : GraphModel) (src dst : String) : GraphModel :=
  { g with edges := g.edges ++ [(src, dst)] }

/-- workflow.add_conditional_edges with a routing function. -/
def GraphModel.add_conditional_edges (g : GraphModel) (src router : String) : GraphModel :=
  { g with conditional_edges := g.conditional_edges ++ [(src, router)] }

/-- The enrichment workflow graph exactly as built at graph.py lines
286-295: three nodes, the entry edge, conditional edges after the agent
and after the checker, and the unconditional edge tools -> agent. -/
def workflow : GraphModel :=
  ((((((GraphModel.empty.add_node
      "call_agent_model").add_node
      "reflect").add_node
      "tools").add_edge "__start__" "call_agent_model").add_conditional_edges
      "call_agent_model" "route_after_agent").add_edge
      "tools" "call_agent_model").add_conditional_edges
      "reflect" "route_after_checker"

/-- Runtime state object of the ReAct graph
(react_agent/utils/state.py lines 12-49): messages plus the managed
is_last_step value. -/
structure ReactState where
  messages : List Msg
  is_last_step : Bool
deriving DecidableEq

/-- Apology text of react_agent/graph.py line 38. -/
def apologyContent : String :=
  "Sorry, I could not find an answer to your question in the specified number of steps."

/-- call_model after the model responds (react_agent/graph.py lines 20-43;
lines 22-32 build the prompt and invoke the LLM, whose AIMessage response
is passed in here as its id, content and tool_calls). When is_last_step
is set and the response still carries tool calls, the response is
replaced by an apology AIMessage that reuses the response id and has no
tool calls (lines 33-41); otherwise the response is returned as is. -/
def call_model (is_last_step : Bool) (rid content : String)
    (tool_calls : List ToolCall) : List Msg :=
  if is_last_step && !tool_calls.isEmpty then
    [.ai rid apologyContent []]
  else
    [.ai rid content tool_calls]

/-- route_model_output (react_agent/graph.py lines 61-69). An empty message
list raises IndexError at `messages[-1]`, and a last message without a
tool_calls attribute raises AttributeError; both are modelled as `none`. -/
def route_model_output (state : ReactState) : Option String :=
  match state.messages.getLast? with
  | none => none
  | some last_message =>
    match last_message.toolCallsAttr with
    | none => none
    | some tcs => if tcs.isEmpty then some "__end__" else some "tools"

/-! Theorems -/

/-- State exercising the dead error branch of route_after_checker: one
research loop done, non-empty info, and the latest message an error
ToolMessage from the checker. -/
def checkerErrorState : State :=
  { topic := "LangChain"
  , extraction_schema := "schema"
  , info := some [("founder", "Harrison")]
  , messages := [Msg.tool "call1" "unsatisfactory" "Info" "error"]
  , loop_step := 1 }

/-- C1: the claim says that with loop_step < max_loops, non-empty info and
an error ToolMessage as the latest message, route_after_checker returns
"call_agent_model" so research continues. On the code it returns "__end__"
at exactly such a state: graph.py line 272 binds `last_message` to the
whole message list instead of `state.messages[-1]`, so the
isinstance(last_message, ToolMessage) test at line 277 is always false and
the continue-research branch is dead, contradicting the docstring at lines
262 and 269. -/
theorem route_after_checker_error_state_ends :
    checkerErrorState.loop_step
        < (Configuration.from_runnable_config (some {})).max_loops ∧
    infoTruthy checkerErrorState.info = true ∧
    checkerErrorState.messages.getLast?
        = some (Msg.tool "call1" "unsatisfactory" "Info" "error") ∧
    route_after_checker checkerErrorState {} = "__end__" := by decide

/-- C2: route_after_checker enforces the loop budget: whenever
loop_step >= max_loops (max_loops taken from the Configuration derived
from the config, default 6) it returns "__end__", and whenever
loop_step < max_loops with info None or the empty dict it returns
"call_agent_model". -/
theorem route_after_checker_loop_budget (state : State) (config : RunnableConfig) :
    ((Configuration.from_runnable_config (some config)).max_loops ≤ state.loop_step →
      route_after_checker state config = "__end__") ∧
    (state.loop_step < (Configuration.from_runnable_config (some config)).max_loops →
      (state.info = none ∨ state.info = some []) →
      route_after_checker state config = "call_agent_model") ∧
    (Configuration.from_runnable_config (some { configurable := none })).max_loops = 6 := by
  refine ⟨?_, ?_, rfl⟩
  · intro h
    unfold route_after_checker
    simp [Nat.not_lt.mpr h]
  · intro h hinfo
    unfold route_after_checker
    rcases hinfo with h1 | h1 <;> simp [h, h1, infoTruthy]

/-- Witness for C2 at concrete states: loop_step 6 hits the default budget
of 6 and ends; loop_step 0 with no info continues. -/
theorem route_after_checker_loop_budget_witness :
    route_after_checker
      { topic := "", extraction_schema := "", info := some [("a", "b")]
      , messages := [], loop_step := 6 } {} = "__end__" ∧
    route_after_checker
      { topic := "", extraction_schema := "", info := none
      , messages := [], loop_step := 0 } {} = "call_agent_model" := by
  constructor
  · exact (route_after_checker_loop_budget _ {}).1 (by decide)
  · exact (route_after_checker_loop_budget _ {}).2.1 (by decide) (Or.inl rfl)

/-- C7: the enrichment workflow has exactly the nodes call_agent_model,
reflect and tools; the only edge out of the start sentinel (and no
conditional edge from it) goes to call_agent_model, so execution always
starts there; and the only edge out of tools (and no conditional edge
from it) goes to call_agent_model, so every tool invocation returns
control to the agent step. -/
theorem workflow_structure :
    workflow.nodes = ["call_agent_model", "reflect", "tools"] ∧
    (("__start__", "call_agent_model") ∈ workflow.edges ∧
      ∀ p ∈ workflow.edges, p.1 = "__start__" → p.2 = "call_agent_model") ∧
    (∀ p ∈ workflow.conditional_edges, p.1 ≠ "__start__") ∧
    (("tools", "call_agent_model") ∈ workflow.edges ∧
      ∀ p ∈ workflow.edges, p.1 = "tools" → p.2 = "call_agent_model") ∧
    (∀ p ∈ workflow.conditional_edges, p.1 ≠ "tools") := by decide

/-- C8: call_agent_model always returns loop_step equal to the constant 1,
whatever the model response, and the State declares no loop_step channel
at all (in particular none with an accumulating reducer), so the step
count route_after_checker compares against max_loops never counts more
than one completed iteration. -/
theorem call_agent_model_loop_step_one (rid content : String) (tcs : List ToolCall) :
    (call_agent_model rid content tcs).loop_step = 1 ∧
    ∀ c ∈ stateChannels, c.1 ≠ "loop_step" :=
  ⟨rfl, by decide⟩

/-- Witness for C8 at a concrete response, including a channel instance. -/
theorem call_agent_model_loop_step_one_witness :
    (call_agent_model "m1" "c" []).loop_step = 1 ∧
    ("messages", true) ∈ stateChannels ∧ ("messages" : String) ≠ "loop_step" :=
  ⟨(call_agent_model_loop_step_one "m1" "c" []).1,
   by decide,
   (call_agent_model_loop_step_one "m1" "c" []).2 ("messages", true) (by decide)⟩

/-- C3: route_after_agent branches only on the shape of the latest message:
a non-AIMessage routes to "call_agent_model" (error recovery), an
AIMessage whose first tool call is named "Info" routes to "reflect", every
other AIMessage routes to "tools", and "__end__" is never returned. -/
theorem route_after_agent_branches (state : State) (last : Msg)
    (h : state.messages.getLast? = some last) :
    (last.isAI = false → route_after_agent state = some "call_agent_model") ∧
    (∀ rid content tcs, last = Msg.ai rid content tcs →
      ((∃ tc rest, tcs = tc :: rest ∧ tc.name = "Info") →
        route_after_agent state = some "reflect") ∧
      ((∀ tc rest, tcs = tc :: rest → tc.name ≠ "Info") →
        route_after_agent state = some "tools")) ∧
    route_after_agent state ≠ some "__end__" := by
  unfold route_after_agent
  rw [h]
  refine ⟨?_, ?_, ?_⟩
  · intro hai
    simp [hai]
  · rintro rid content tcs rfl
    constructor
    · rintro ⟨tc, rest, rfl, hname⟩
      simp [Msg.isAI, Msg.toolCalls, Msg.toolCallsAttr, hname]
    · intro hfirst
      cases tcs with
      | nil => simp [Msg.isAI, Msg.toolCalls, Msg.toolCallsAttr]
      | cons tc rest =>
        have hne := hfirst tc rest rfl
        simp [Msg.isAI, Msg.toolCalls, Msg.toolCallsAttr, hne]
  · cases last with
    | human c => simp [Msg.isAI]
    | tool a b c d => simp [Msg.isAI]
    | ai rid c tcs =>
      cases tcs with
      | nil => simp [Msg.isAI, Msg.toolCalls, Msg.toolCallsAttr]
      | cons tc rest =>
        by_cases hn : tc.name = "Info" <;>
          simp [Msg.isAI, Msg.toolCalls, Msg.toolCallsAttr, hn]

/-- Witness for C3: an AIMessage whose first tool call is named "Info"
routes to "reflect". -/
theorem route_after_agent_branches_witness :
    route_after_agent
      { topic := "", extraction_schema := "", info := none
      , messages := [Msg.ai "m1" "" [{ name := "Info", args := [], id := "tc1" }]]
      , loop_step := 0 } = some "reflect" := by
  have h := route_after_agent_branches
    { topic := "", extraction_schema := "", info := none
    , messages := [Msg.ai "m1" "" [{ name := "Info", args := [], id := "tc1" }]]
    , loop_step := 0 }
    (Msg.ai "m1" "" [{ name := "Info", args := [], id := "tc1" }]) rfl
  exact (h.2.1 "m1" "" _ rfl).1 ⟨_, _, rfl, rfl⟩

/-- find? over a list that splits as a failing block, a first hit, and a
remainder returns the first hit. -/
theorem find?_append_first {α} (p : α → Bool) (pre post : List α) (a : α)
    (hpre : ∀ x ∈ pre, p x = false) (ha : p a = true) :
    (pre ++ a :: post).find? p = some a := by
  induction pre with
  | nil => simp [List.find?_cons, ha]
  | cons x xs ih =>
    have hx := hpre x (by simp)
    rw [List.cons_append, List.find?_cons, hx]
    exact ih fun y hy => hpre y (by simp [hy])

/-- C4: call_agent_model treats an "Info" tool call as the proposed
extraction result: when the response's tool calls split as a prefix with
no "Info" call, then a call named "Info", the returned info is the args of
that first "Info" call and the returned message list is exactly the
response with its tool calls reduced to that single call (simultaneous
research calls discarded); when no tool call is named "Info", info is
None. -/
theorem call_agent_model_info_submission (rid content : String) (tcs : List ToolCall) :
    (∀ pre tc post, tcs = pre ++ tc :: post →
      (∀ t ∈ pre, t.name ≠ "Info") → tc.name = "Info" →
      (call_agent_model rid content tcs).info = some tc.args ∧
      (call_agent_model rid content tcs).messages = [Msg.ai rid content [tc]]) ∧
    ((∀ t ∈ tcs, t.name ≠ "Info") →
      (call_agent_model rid content tcs).info = none) := by
  constructor
  · rintro pre tc post rfl hpre hname
    have hfind : (pre ++ tc :: post).find? (fun t => t.name == "Info") = some tc := by
      refine find?_append_first _ pre post tc (fun x hx => ?_) (by simp [hname])
      simp [hpre x hx]
    unfold call_agent_model
    simp [hfind]
  · intro hall
    have hfind : tcs.find? (fun t => t.name == "Info") = none := by
      rw [List.find?_eq_none]
      intro x hx
      simp [hall x hx]
    unfold call_agent_model
    simp [hfind]

/-- A research tool call, for concrete witnesses. -/
def searchCall : ToolCall := { name := "search", args := [("query", "q")], id := "t1" }

/-- An Info submission tool call, for concrete witnesses. -/
def infoCall : ToolCall := { name := "Info", args := [("founder", "h")], id := "t2" }

/-- Witness for C4: a response carrying a search call and an Info call
yields the Info args as info and drops the search call from the kept
message. -/
theorem call_agent_model_info_submission_witness :
    (call_agent_model "m1" "" [searchCall, infoCall]).info
        = some [("founder", "h")] ∧
    (call_agent_model "m1" "" [searchCall, infoCall]).messages
        = [Msg.ai "m1" "" [infoCall]] := by
  have h := (call_agent_model_info_submission "m1" "" [searchCall, infoCall]).1
    [searchCall] infoCall [] rfl (by decide) (by decide)
  exact ⟨h.1, h.2⟩

/-- C5: when is_last_step is set and the model response still carries tool
calls, call_model returns a single AIMessage reusing the response id,
holding the apology text and no tool calls; route_model_output on any
message history ending with that message then returns "__end__" rather
than "tools". -/
theorem call_model_last_step (rid content : String) (tcs : List ToolCall)
    (h : tcs ≠ []) :
    call_model true rid content tcs = [Msg.ai rid apologyContent []] ∧
    ∀ pre : List Msg,
      route_model_output
        { messages := pre ++ call_model true rid content tcs
        , is_last_step := true } = some "__end__" := by
  have hne : tcs.isEmpty = false := by
    cases tcs with
    | nil => exact absurd rfl h
    | cons a l => rfl
  have hcm : call_model true rid content tcs = [Msg.ai rid apologyContent []] := by
    unfold call_model
    simp [hne]
  refine ⟨hcm, fun pre => ?_⟩
  rw [hcm]
  unfold route_model_output
  rw [List.getLast?_concat]
  simp [Msg.toolCallsAttr]

/-- Witness for C5 at a concrete last-step response with one tool call. -/
theorem call_model_last_step_witness :
    call_model true "m1" "answer" [searchCall] = [Msg.ai "m1" apologyContent []] ∧
    route_model_output
      { messages := [] ++ call_model true "m1" "answer" [searchCall]
      , is_last_step := true } = some "__end__" :=
  ⟨(call_model_last_step "m1" "answer" [searchCall] (by decide)).1,
   (call_model_last_step "m1" "answer" [searchCall] (by decide)).2 []⟩

/-- C6: route_model_output branches only on the latest message: when the
last message is an AIMessage, it returns "__end__" exactly when that
message has no tool calls and "tools" exactly when it has some. -/
theorem route_model_output_branches (state : ReactState)
    (rid content : String) (tcs : List ToolCall)
    (h : state.messages.getLast? = some (Msg.ai rid content tcs)) :
    (route_model_output state = some "__end__" ↔ tcs = []) ∧
    (route_model_output state = some "tools" ↔ tcs ≠ []) := by
  unfold route_model_output
  rw [h]
  cases tcs with
  | nil => simp [Msg.toolCallsAttr]
  | cons a l => simp [Msg.toolCallsAttr]

/-- Witness for C6: a tool-call-free AIMessage terminates the ReAct loop. -/
theorem route_model_output_branches_witness :
    route_model_output { messages := [Msg.ai "m1" "done" []], is_last_step := false }
      = some "__end__" :=
  ((route_model_output_branches
    { messages := [Msg.ai "m1" "done" []], is_last_step := false }
    "m1" "done" [] rfl).1).mpr rfl

/-- Characterisation of when reflect raises ValueError: exactly when the
last message exists and is not an AIMessage. -/
theorem reflect_error_valueError_iff (state : State) (response : InfoIsSatisfactory)
    (last : Msg) (h : state.messages.getLast? = some last) :
    reflect state response = Except.error PyError.valueError ↔ last.isAI = false := by
  unfold reflect
  rw [h]
  cases hai : last.isAI with
  | false => simp [hai]
  | true =>
    cases hsat : response.is_satisfactory with
    | true => simp [hai, hsat]
    | false =>
      cases htc : last.toolCalls with
      | nil => simp [hai, hsat, htc]
      | cons tc rest => simp [hai, hsat, htc]

/-- C9: reflect raises ValueError exactly when the last message is not an
AIMessage; that validation does not depend on the critique response (which
reflect receives as an argument because the model was invoked before the
check runs); and an AIMessage with an empty tool_calls list passes the
check, after which the unsatisfactory branch fails with an out-of-bounds
access (IndexError) when reading tool_calls[0]. -/
theorem reflect_validation (state : State) (response : InfoIsSatisfactory)
    (last : Msg) (h : state.messages.getLast? = some last) :
    (reflect state response = Except.error PyError.valueError ↔ last.isAI = false) ∧
    (∀ other : InfoIsSatisfactory,
      (reflect state response = Except.error PyError.valueError ↔
        reflect state other = Except.error PyError.valueError)) ∧
    (∀ rid c, last = Msg.ai rid c [] → response.is_satisfactory = false →
      reflect state response = Except.error PyError.indexError) := by
  refine ⟨reflect_error_valueError_iff state response last h,
    fun other => (reflect_error_valueError_iff state response last h).trans
      (reflect_error_valueError_iff state other last h).symm, ?_⟩
  rintro rid c rfl hsat
  unfold reflect
  rw [h]
  simp [Msg.isAI, hsat, Msg.toolCalls, Msg.toolCallsAttr]

/-- Witness for C9: an AIMessage with no tool calls plus an unsatisfactory
verdict crashes with IndexError. -/
theorem reflect_validation_witness :
    reflect
      { topic := "", extraction_schema := "", info := some [("a", "b")]
      , messages := [Msg.ai "m1" "" []], loop_step := 1 }
      { reason := ["r1"], is_satisfactory := false }
      = Except.error PyError.indexError := by
  have h := reflect_validation
    { topic := "", extraction_schema := "", info := some [("a", "b")]
    , messages := [Msg.ai "m1" "" []], loop_step := 1 }
    { reason := ["r1"], is_satisfactory := false }
    (Msg.ai "m1" "" []) rfl
  exact h.2.2 "m1" "" rfl rfl

/-- C10: whenever the checker verdict is satisfactory (and the AIMessage
validation passes), reflect returns exactly the update that sets info to
state.info; the except branch that would emit an error ToolMessage is
never taken, because the guarded return expression cannot raise. -/
theorem reflect_satisfactory_returns_info (state : State)
    (response : InfoIsSatisfactory) (last : Msg)
    (h : state.messages.getLast? = some last)
    (hai : last.isAI = true) (hsat : response.is_satisfactory = true) :
    reflect state response = Except.ok (ReflectUpdate.setInfo state.info) := by
  unfold reflect
  rw [h]
  simp [hai, hsat]

/-- Witness for C10 at a concrete satisfied state. -/
theorem reflect_satisfactory_returns_info_witness :
    reflect
      { topic := "", extraction_schema := "", info := some [("founder", "h")]
      , messages := [Msg.ai "m1" "" [{ name := "Info", args := [], id := "tc1" }]]
      , loop_step := 2 }
      { reason := ["good"], is_satisfactory := true }
      = Except.ok (ReflectUpdate.setInfo (some [("founder", "h")])) := by
  exact reflect_satisfactory_returns_info
    { topic := "", extraction_schema := "", info := some [("founder", "h")]
    , messages := [Msg.ai "m1" "" [{ name := "Info", args := [], id := "tc1" }]]
    , loop_step := 2 }
    { reason := ["good"], is_satisfactory := true }
    (Msg.ai "m1" "" [{ name := "Info", args := [], id := "tc1" }]) rfl rfl rfl

end DataEnrichment
